import Mathlib

/-!
Verification of the frame-orchestration and camera-manipulation core of the
asteroids_d3d12 renderer (src/src/camera.cpp and src/src/WinWrapper.cpp).

Floating-point quantities are modelled as rationals (ℚ): every arithmetic
operation the claims are about (addition, multiplication, division, clamping,
comparison) is exact at this level.  The DirectXMath matrix constructors
(XMMatrixPerspectiveFovRH, XMMatrixLookAtRH, ...) are external library calls;
a matrix is represented by the parameters the code passes to its constructor,
since the claims only concern those parameters.
-/

/-- DirectXMath constant XM_PI (the float literal 3.141592654f). -/
def XM_PI : ℚ := 3.141592654

/-- DirectXMath constant XM_PIDIV2 (the float literal 1.570796327f). -/
def XM_PIDIV2 : ℚ := 1.570796327

/-- State of OrbitCamera (camera.cpp).  The derived view/projection matrices
are built by external DirectXMath calls from exactly the fields below, so the
projection matrix is represented by the (fovY, aspect) pair the code passes to
XMMatrixPerspectiveFovRH in OrbitCamera::Projection. -/
structure OrbitCamera where
  mCenter : ℚ × ℚ × ℚ
  mUp : ℚ × ℚ × ℚ
  mRadius : ℚ
  mMinRadius : ℚ
  mMaxRadius : ℚ
  mLongAngle : ℚ
  mLatAngle : ℚ
  mProjFovY : ℚ
  mProjAspect : ℚ
  deriving DecidableEq

/-- OrbitCamera constructor defaults (camera.cpp lines 25-35); the projection
parameters are first set by a later Projection call, zero placeholders here. -/
def OrbitCamera.new : OrbitCamera :=
  { mCenter := (0, 0, 0)
    mUp := (0, 1, 0)
    mRadius := 1
    mMinRadius := 1
    mMaxRadius := 1
    mLongAngle := 0
    mLatAngle := 0
    mProjFovY := 0
    mProjAspect := 0 }

/-- OrbitCamera::View (camera.cpp lines 67-78). -/
def OrbitCamera.View (c : OrbitCamera) (center : ℚ × ℚ × ℚ)
    (radius minRadius maxRadius longAngle latAngle : ℚ) : OrbitCamera :=
  { c with
    mCenter := center
    mRadius := radius
    mMinRadius := minRadius
    mMaxRadius := maxRadius
    mLongAngle := longAngle
    mLatAngle := latAngle }

/-- OrbitCamera::Projection (camera.cpp lines 81-86):
`float fovY = (aspect <= 1.0 ? fov : fov / aspect);`
then `mProjection = XMMatrixPerspectiveFovRH(fovY, aspect, 10000.0f, 0.1f)`. -/
def OrbitCamera.Projection (c : OrbitCamera) (fov aspect : ℚ) : OrbitCamera :=
  { c with
    mProjFovY := if aspect ≤ 1 then fov else fov / aspect
    mProjAspect := aspect }

/-- OrbitCamera::OrbitX (camera.cpp lines 102-106). -/
def OrbitCamera.OrbitX (c : OrbitCamera) (angle : ℚ) : OrbitCamera :=
  { c with mLongAngle := c.mLongAngle + angle }

/-- OrbitCamera::OrbitY (camera.cpp lines 109-114):
`float limit = XM_PI * 0.01f;`
`mLatAngle = std::max(limit, std::min(XM_PI-limit, mLatAngle + angle));` -/
def OrbitCamera.OrbitY (c : OrbitCamera) (angle : ℚ) : OrbitCamera :=
  { c with mLatAngle := max (XM_PI * 0.01) (min (XM_PI - XM_PI * 0.01) (c.mLatAngle + angle)) }

/-- OrbitCamera::ZoomRadius (camera.cpp lines 117-121):
`mRadius = std::max(mMinRadius, std::min(mMaxRadius, mRadius + delta));` -/
def OrbitCamera.ZoomRadius (c : OrbitCamera) (delta : ℚ) : OrbitCamera :=
  { c with mRadius := max c.mMinRadius (min c.mMaxRadius (c.mRadius + delta)) }

/-- OrbitCamera::ZoomRadiusScale (camera.cpp lines 123-127):
`mRadius = std::max(mMinRadius, std::min(mMaxRadius, mRadius * delta));` -/
def OrbitCamera.ZoomRadiusScale (c : OrbitCamera) (delta : ℚ) : OrbitCamera :=
  { c with mRadius := max c.mMinRadius (min c.mMaxRadius (c.mRadius * delta)) }

/-- C1 counterexample: the spec's branch assignment is swapped relative to the
code.  At fieldOfView = 1 and aspectRatio = 2 (> 1) the vertical FOV used by
OrbitCamera::Projection is 1/2 = fov/aspect, not the given fieldOfView. -/
theorem C1_counterexample :
    (1 : ℚ) < 2 ∧ (OrbitCamera.new.Projection 1 2).mProjFovY = 1 / 2 ∧
      ¬ (OrbitCamera.new.Projection 1 2).mProjFovY = 1 := by
  refine ⟨by norm_num, ?_, ?_⟩ <;> simp [OrbitCamera.Projection, OrbitCamera.new]

/-- C1 (amended): for every call to Projection(fov, aspect), if aspect ≤ 1 the
vertical FOV used to build the perspective matrix equals the given fov, and if
aspect > 1 it equals fov divided by aspect (preserving horizontal FOV on wide
displays). -/
theorem C1_projection_fovY (c : OrbitCamera) (fov aspect : ℚ) :
    (aspect ≤ 1 → (c.Projection fov aspect).mProjFovY = fov) ∧
    (1 < aspect → (c.Projection fov aspect).mProjFovY = fov / aspect) := by
  constructor <;> intro h
  · simp only [OrbitCamera.Projection, if_pos h]
  · simp only [OrbitCamera.Projection, if_neg (not_le.mpr h)]

/-- C1 witness: Projection at fov = 1, aspect = 2 uses vertical FOV 1/2. -/
theorem C1_projection_fovY_witness :
    (OrbitCamera.new.Projection 1 2).mProjFovY = 1 / 2 :=
  (C1_projection_fovY OrbitCamera.new 1 2).2 (by norm_num)

/-- C2: whenever mMinRadius ≤ mMaxRadius, the radius resulting from
ZoomRadius (additive) or ZoomRadiusScale (multiplicative) lies in
[mMinRadius, mMaxRadius], for a delta of any magnitude or sign. -/
theorem C2_zoom_radius_clamped (c : OrbitCamera) (delta factor : ℚ)
    (h : c.mMinRadius ≤ c.mMaxRadius) :
    (c.mMinRadius ≤ (c.ZoomRadius delta).mRadius ∧
      (c.ZoomRadius delta).mRadius ≤ c.mMaxRadius) ∧
    (c.mMinRadius ≤ (c.ZoomRadiusScale factor).mRadius ∧
      (c.ZoomRadiusScale factor).mRadius ≤ c.mMaxRadius) := by
  refine ⟨⟨le_max_left _ _, ?_⟩, ⟨le_max_left _ _, ?_⟩⟩ <;>
    exact max_le h (min_le_left _ _)

/-- C2 witness: with radius 1, bounds [1, 1], a huge negative delta still lands
in the interval. -/
theorem C2_zoom_radius_clamped_witness :
    (OrbitCamera.new.mMinRadius ≤ (OrbitCamera.new.ZoomRadius (-1000)).mRadius ∧
      (OrbitCamera.new.ZoomRadius (-1000)).mRadius ≤ OrbitCamera.new.mMaxRadius) ∧
    (OrbitCamera.new.mMinRadius ≤ (OrbitCamera.new.ZoomRadiusScale 1000).mRadius ∧
      (OrbitCamera.new.ZoomRadiusScale 1000).mRadius ≤ OrbitCamera.new.mMaxRadius) :=
  C2_zoom_radius_clamped OrbitCamera.new (-1000) 1000 (by norm_num [OrbitCamera.new])

/-- C3 counterexample: OrbitY clamps the latitude to the CLOSED interval
[ε, π−ε] with ε = XM_PI * 0.01; a large negative delta from the default state
lands exactly on ε, so the result is not strictly inside the open interval. -/
theorem C3_counterexample :
    (OrbitCamera.new.OrbitY (-1)).mLatAngle = XM_PI * 0.01 ∧
      ¬ (XM_PI * 0.01 < (OrbitCamera.new.OrbitY (-1)).mLatAngle) := by
  constructor <;> simp [OrbitCamera.OrbitY, OrbitCamera.new, XM_PI] <;> norm_num

/-- C3 (amended): for every call to OrbitY(deltaAngle), with ε = 1% of π, the
resulting latitudinal angle lies in the closed interval [ε, π−ε]; in
particular it stays strictly between the poles 0 and π, and repeated deltas of
any magnitude (a nonempty sequence of OrbitY calls) never reach or cross the
poles. -/
theorem C3_latitude_clamped (c : OrbitCamera) (angle : ℚ) (angles : List ℚ)
    (hne : angles ≠ []) :
    (XM_PI * 0.01 ≤ (c.OrbitY angle).mLatAngle ∧
      (c.OrbitY angle).mLatAngle ≤ XM_PI - XM_PI * 0.01 ∧
      0 < (c.OrbitY angle).mLatAngle ∧ (c.OrbitY angle).mLatAngle < XM_PI) ∧
    (0 < (angles.foldl OrbitCamera.OrbitY c).mLatAngle ∧
      (angles.foldl OrbitCamera.OrbitY c).mLatAngle < XM_PI) := by
  have heps : (0 : ℚ) < XM_PI * 0.01 := by norm_num [XM_PI]
  have hlt : XM_PI * 0.01 ≤ XM_PI - XM_PI * 0.01 := by norm_num [XM_PI]
  have hstep : ∀ (d : OrbitCamera) (a : ℚ),
      XM_PI * 0.01 ≤ (d.OrbitY a).mLatAngle ∧
        (d.OrbitY a).mLatAngle ≤ XM_PI - XM_PI * 0.01 := by
    intro d a
    exact ⟨le_max_left _ _, max_le hlt (min_le_left _ _)⟩
  have hopen : ∀ (d : OrbitCamera) (a : ℚ),
      0 < (d.OrbitY a).mLatAngle ∧ (d.OrbitY a).mLatAngle < XM_PI := by
    intro d a
    refine ⟨lt_of_lt_of_le heps (hstep d a).1, lt_of_le_of_lt (hstep d a).2 ?_⟩
    norm_num [XM_PI]
  refine ⟨⟨(hstep c angle).1, (hstep c angle).2, hopen c angle⟩, ?_⟩
  obtain ⟨a, as, rfl⟩ : ∃ a as, angles = a :: as :=
    match angles, hne with
    | a :: as, _ => ⟨a, as, rfl⟩
  clear hne
  induction as generalizing c a with
  | nil => exact hopen c a
  | cons b bs ih => exact ih (c.OrbitY a) b

/-- C3 witness: from the default camera, a single extreme negative delta and
the two-step sequence [−1000, 1000] both keep the latitude inside (0, π) and
inside [ε, π−ε] for the single step. -/
theorem C3_latitude_clamped_witness :
    (XM_PI * 0.01 ≤ (OrbitCamera.new.OrbitY (-1000)).mLatAngle ∧
      (OrbitCamera.new.OrbitY (-1000)).mLatAngle ≤ XM_PI - XM_PI * 0.01 ∧
      0 < (OrbitCamera.new.OrbitY (-1000)).mLatAngle ∧
      (OrbitCamera.new.OrbitY (-1000)).mLatAngle < XM_PI) ∧
    (0 < (([-1000, 1000] : List ℚ).foldl OrbitCamera.OrbitY OrbitCamera.new).mLatAngle ∧
      (([-1000, 1000] : List ℚ).foldl OrbitCamera.OrbitY OrbitCamera.new).mLatAngle < XM_PI) :=
  C3_latitude_clamped OrbitCamera.new (-1000) [-1000, 1000] (by simp)

/-!
Main-loop per-tick timing and statistics state (WinWrapper.cpp main, lines
405-537).  One tick of the loop consumes one raw frame time (the performance
counter delta divided by the counter frequency) together with the
lockFrameRate flag, and updates the mutable loop-local statistics below.
-/

/-- The loop-local statistics variables of main (WinWrapper.cpp lines 412-429),
plus the smoothing accumulator frameTime. -/
structure LoopState where
  elapsedTime : ℚ
  timeInterval : ℚ
  frameTime : ℚ
  sumFPS : ℚ
  currentFPS : ℚ
  minFPS : ℚ
  maxFPS : ℚ
  numFrames : ℕ
  fpsHistoryVector : List (ℚ × ℚ × ℚ)
  deriving DecidableEq

/-- Initial values of the loop-local variables (WinWrapper.cpp lines 412-419);
currentFPS starts at 0 and frameTime at 0. -/
def initLoopState : LoopState :=
  { elapsedTime := 0
    timeInterval := 0
    frameTime := 0
    sumFPS := 0
    currentFPS := 0
    minFPS := 99999999
    maxFPS := 0
    numFrames := 0
    fpsHistoryVector := [] }

/-- The smoothing coefficient (WinWrapper.cpp line 490: `double alpha = 0.2f`). -/
def alpha : ℚ := 0.2

/-- WinWrapper.cpp line 491:
`frameTime = alpha * rawFrameTime + (1.0f - alpha) * frameTime;` -/
def smoothedFrameTime (rawFrameTime frameTime : ℚ) : ℚ :=
  alpha * rawFrameTime + (1 - alpha) * frameTime

/-- WinWrapper.cpp lines 499-505: under frame-rate lock the FPS text shows a
static "(Locked)" string and currentFPS is left untouched; otherwise
`if (frameTime != 0) currentFPS = 1.0f / frameTime;`. -/
def tickCurrentFPS (lockFrameRate : Bool) (frameTime currentFPS : ℚ) : ℚ :=
  if lockFrameRate then currentFPS
  else if frameTime ≠ 0 then 1 / frameTime else currentFPS

/-- WinWrapper.cpp lines 510-512: `if (numFrames > 100) sumFPS += currentFPS`
(numFrames already incremented). -/
def tickSumFPS (numFrames : ℕ) (currentFPS sumFPS : ℚ) : ℚ :=
  if 100 < numFrames then sumFPS + currentFPS else sumFPS

/-- WinWrapper.cpp lines 514-517: `if (currentFPS < minFPS) minFPS = currentFPS`
inside the `numFrames > 100` block. -/
def tickMinFPS (numFrames : ℕ) (currentFPS minFPS : ℚ) : ℚ :=
  if 100 < numFrames ∧ currentFPS < minFPS then currentFPS else minFPS

/-- WinWrapper.cpp lines 518-521: `if (currentFPS > maxFPS) maxFPS = currentFPS`
inside the `numFrames > 100` block. -/
def tickMaxFPS (numFrames : ℕ) (currentFPS maxFPS : ℚ) : ℚ :=
  if 100 < numFrames ∧ maxFPS < currentFPS then currentFPS else maxFPS

/-- One tick of main's time-measurement and statistics update (WinWrapper.cpp
lines 483-537): accumulate elapsed time, exponentially smooth the frame time,
refresh currentFPS, and - only when a positive close-after duration is
configured - count the frame, aggregate FPS extrema/sum past the first 100
frames, accumulate the raw millisecond interval, and append a time-series
sample once the accumulated interval reaches 1000 ms (resetting it to 0). -/
def statsTick (closeAfterSeconds : ℚ) (lockFrameRate : Bool) (rawFrameTime : ℚ)
    (s : LoopState) : LoopState :=
  if 0 < closeAfterSeconds then
    if 1000 ≤ s.timeInterval + rawFrameTime * 1000 then
      { elapsedTime := s.elapsedTime + rawFrameTime
        timeInterval := 0
        frameTime := smoothedFrameTime rawFrameTime s.frameTime
        sumFPS := tickSumFPS (s.numFrames + 1)
          (tickCurrentFPS lockFrameRate (smoothedFrameTime rawFrameTime s.frameTime) s.currentFPS) s.sumFPS
        currentFPS := tickCurrentFPS lockFrameRate (smoothedFrameTime rawFrameTime s.frameTime) s.currentFPS
        minFPS := tickMinFPS (s.numFrames + 1)
          (tickCurrentFPS lockFrameRate (smoothedFrameTime rawFrameTime s.frameTime) s.currentFPS) s.minFPS
        maxFPS := tickMaxFPS (s.numFrames + 1)
          (tickCurrentFPS lockFrameRate (smoothedFrameTime rawFrameTime s.frameTime) s.currentFPS) s.maxFPS
        numFrames := s.numFrames + 1
        fpsHistoryVector := s.fpsHistoryVector ++
          [(s.elapsedTime + rawFrameTime, smoothedFrameTime rawFrameTime s.frameTime * 1000, rawFrameTime * 1000)] }
    else
      { elapsedTime := s.elapsedTime + rawFrameTime
        timeInterval := s.timeInterval + rawFrameTime * 1000
        frameTime := smoothedFrameTime rawFrameTime s.frameTime
        sumFPS := tickSumFPS (s.numFrames + 1)
          (tickCurrentFPS lockFrameRate (smoothedFrameTime rawFrameTime s.frameTime) s.currentFPS) s.sumFPS
        currentFPS := tickCurrentFPS lockFrameRate (smoothedFrameTime rawFrameTime s.frameTime) s.currentFPS
        minFPS := tickMinFPS (s.numFrames + 1)
          (tickCurrentFPS lockFrameRate (smoothedFrameTime rawFrameTime s.frameTime) s.currentFPS) s.minFPS
        maxFPS := tickMaxFPS (s.numFrames + 1)
          (tickCurrentFPS lockFrameRate (smoothedFrameTime rawFrameTime s.frameTime) s.currentFPS) s.maxFPS
        numFrames := s.numFrames + 1
        fpsHistoryVector := s.fpsHistoryVector }
  else
    { s with
      elapsedTime := s.elapsedTime + rawFrameTime
      frameTime := smoothedFrameTime rawFrameTime s.frameTime
      currentFPS := tickCurrentFPS lockFrameRate (smoothedFrameTime rawFrameTime s.frameTime) s.currentFPS }

/-- The elapsed time always advances by the raw frame time. -/
theorem statsTick_elapsedTime (D : ℚ) (lock : Bool) (raw : ℚ) (s : LoopState) :
    (statsTick D lock raw s).elapsedTime = s.elapsedTime + raw := by
  unfold statsTick
  split
  · split <;> rfl
  · rfl

/-- With a positive close-after duration the frame counter advances by one. -/
theorem statsTick_numFrames (D : ℚ) (lock : Bool) (raw : ℚ) (s : LoopState)
    (hD : 0 < D) :
    (statsTick D lock raw s).numFrames = s.numFrames + 1 := by
  unfold statsTick
  rw [if_pos hD]
  split <;> rfl

/-- With a positive close-after duration the FPS sum advances by the new
currentFPS when the new frame index exceeds 100 and is unchanged otherwise. -/
theorem statsTick_sumFPS (D : ℚ) (lock : Bool) (raw : ℚ) (s : LoopState)
    (hD : 0 < D) :
    (statsTick D lock raw s).sumFPS
      = tickSumFPS (s.numFrames + 1) ((statsTick D lock raw s).currentFPS) s.sumFPS := by
  unfold statsTick
  rw [if_pos hD]
  split <;> rfl

/-- The new currentFPS is computed from the lock flag and new smoothed frame
time. -/
theorem statsTick_currentFPS (D : ℚ) (lock : Bool) (raw : ℚ) (s : LoopState) :
    (statsTick D lock raw s).currentFPS
      = tickCurrentFPS lock (smoothedFrameTime raw s.frameTime) s.currentFPS := by
  unfold statsTick
  split
  · split <;> rfl
  · rfl

/-- C7: for every tick with raw frame time r and previous smoothed frame
time s, the smoothed frame time after the tick equals exactly 0.2·r + 0.8·s,
whatever the close-after setting and lock flag. -/
theorem C7_frame_smoothing (D : ℚ) (lock : Bool) (r : ℚ) (s : LoopState) :
    (statsTick D lock r s).frameTime = 0.2 * r + 0.8 * s.frameTime := by
  have h : (statsTick D lock r s).frameTime = smoothedFrameTime r s.frameTime := by
    unfold statsTick
    split
    · split <;> rfl
    · rfl
  rw [h]
  unfold smoothedFrameTime alpha
  norm_num

/-- C6: a time-series sample is appended if and only if a positive close-after
duration is configured and the raw time accumulated since the last emitted
sample reaches 1000 ms; the appended sample is (elapsed, smoothed·1000,
raw·1000), the accumulator resets to 0 on emission, and otherwise the history
is unchanged while the accumulator just grows (when configured). -/
theorem C6_timeseries_emission (D : ℚ) (lock : Bool) (raw : ℚ) (s : LoopState) :
    ((statsTick D lock raw s).fpsHistoryVector.length = s.fpsHistoryVector.length + 1 ↔
      (0 < D ∧ 1000 ≤ s.timeInterval + raw * 1000)) ∧
    (0 < D → 1000 ≤ s.timeInterval + raw * 1000 →
      (statsTick D lock raw s).fpsHistoryVector
        = s.fpsHistoryVector ++
            [(s.elapsedTime + raw, smoothedFrameTime raw s.frameTime * 1000, raw * 1000)] ∧
      (statsTick D lock raw s).timeInterval = 0) ∧
    (¬ (0 < D ∧ 1000 ≤ s.timeInterval + raw * 1000) →
      (statsTick D lock raw s).fpsHistoryVector = s.fpsHistoryVector ∧
      (statsTick D lock raw s).timeInterval
        = if 0 < D then s.timeInterval + raw * 1000 else s.timeInterval) := by
  by_cases hD : 0 < D
  · by_cases hT : 1000 ≤ s.timeInterval + raw * 1000
    · have hhist : (statsTick D lock raw s).fpsHistoryVector
          = s.fpsHistoryVector ++
              [(s.elapsedTime + raw, smoothedFrameTime raw s.frameTime * 1000, raw * 1000)] := by
        unfold statsTick; rw [if_pos hD, if_pos hT]
      have hti : (statsTick D lock raw s).timeInterval = 0 := by
        unfold statsTick; rw [if_pos hD, if_pos hT]
      exact ⟨⟨fun _ => ⟨hD, hT⟩, fun _ => by rw [hhist]; simp⟩,
        fun _ _ => ⟨hhist, hti⟩, fun h => absurd ⟨hD, hT⟩ h⟩
    · have hhist : (statsTick D lock raw s).fpsHistoryVector = s.fpsHistoryVector := by
        unfold statsTick; rw [if_pos hD, if_neg hT]
      have hti : (statsTick D lock raw s).timeInterval = s.timeInterval + raw * 1000 := by
        unfold statsTick; rw [if_pos hD, if_neg hT]
      refine ⟨⟨fun h => ?_, fun h => absurd h.2 hT⟩,
        fun _ h => absurd h hT, fun _ => ⟨hhist, by rw [hti, if_pos hD]⟩⟩
      rw [hhist] at h
      exact absurd h (by omega)
  · have hhist : (statsTick D lock raw s).fpsHistoryVector = s.fpsHistoryVector := by
      unfold statsTick; rw [if_neg hD]
    have hti : (statsTick D lock raw s).timeInterval = s.timeInterval := by
      unfold statsTick; rw [if_neg hD]
    refine ⟨⟨fun h => ?_, fun h => absurd h.1 hD⟩,
      fun h _ => absurd h hD, fun _ => ⟨hhist, by rw [hti, if_neg hD]⟩⟩
    rw [hhist] at h
    exact absurd h (by omega)

/-- C6 witness: at the initial state with raw = 2 seconds and close-after
configured, the accumulated interval 2000 ms reaches the threshold. -/
theorem C6_timeseries_emission_witness :
    ((statsTick 10 false 2 initLoopState).fpsHistoryVector.length
        = initLoopState.fpsHistoryVector.length + 1 ↔
      ((0:ℚ) < 10 ∧ 1000 ≤ initLoopState.timeInterval + 2 * 1000)) ∧
    ((0:ℚ) < 10 → 1000 ≤ initLoopState.timeInterval + 2 * 1000 →
      (statsTick 10 false 2 initLoopState).fpsHistoryVector
        = initLoopState.fpsHistoryVector ++
            [(initLoopState.elapsedTime + 2, smoothedFrameTime 2 initLoopState.frameTime * 1000, 2 * 1000)] ∧
      (statsTick 10 false 2 initLoopState).timeInterval = 0) ∧
    (¬ ((0:ℚ) < 10 ∧ 1000 ≤ initLoopState.timeInterval + 2 * 1000) →
      (statsTick 10 false 2 initLoopState).fpsHistoryVector = initLoopState.fpsHistoryVector ∧
      (statsTick 10 false 2 initLoopState).timeInterval
        = if (0:ℚ) < 10 then initLoopState.timeInterval + 2 * 1000 else initLoopState.timeInterval) :=
  C6_timeseries_emission 10 false 2 initLoopState

/-!
Run model of the main loop's statistics/termination path (WinWrapper.cpp
lines 443-583).  A run consumes a list of ticks, each carrying the
lockFrameRate flag in effect and the raw frame time measured that tick, and
either exhausts the list (no close-after termination) or, at the first tick
whose accumulated elapsed time exceeds a positive closeAfterSeconds, writes
one summary record and one time-series record and returns exit code 0
(lines 562-582).
-/

/-- C++ uint64 subtraction `a - b` (for b ≤ 2^64), as used on
`numFrames - 100` (WinWrapper.cpp line 567) where numFrames is std::uint64_t. -/
def uint64Sub (a b : ℕ) : ℕ :=
  (a + 2 ^ 64 - b) % 2 ^ 64

/-- The single summary row `minFPS, maxFPS, sumFPS / (numFrames - 100)`
(WinWrapper.cpp lines 566-568). -/
def mkSummary (s : LoopState) : ℚ × ℚ × ℚ :=
  (s.minFPS, s.maxFPS, s.sumFPS / (uint64Sub s.numFrames 100 : ℚ))

/-- The main loop restricted to its statistics and termination behaviour:
per tick, run the statistics update, then terminate with the summary row, the
time-series rows and exit code 0 as soon as a positive close-after duration is
exceeded by the elapsed time (WinWrapper.cpp lines 562-582); `none` means the
tick stream ended without close-after termination. -/
def runMainLoop (closeAfterSeconds : ℚ) :
    List (Bool × ℚ) → LoopState → Option ((ℚ × ℚ × ℚ) × List (ℚ × ℚ × ℚ) × ℤ)
  | [], _ => none
  | (lockFrameRate, rawFrameTime) :: rest, s =>
    if 0 < closeAfterSeconds ∧
        closeAfterSeconds < (statsTick closeAfterSeconds lockFrameRate rawFrameTime s).elapsedTime then
      some (mkSummary (statsTick closeAfterSeconds lockFrameRate rawFrameTime s),
        (statsTick closeAfterSeconds lockFrameRate rawFrameTime s).fpsHistoryVector, 0)
    else
      runMainLoop closeAfterSeconds rest (statsTick closeAfterSeconds lockFrameRate rawFrameTime s)

/-- The per-frame FPS samples of a run: the value of currentFPS at each
executed tick, up to and including the terminating tick. -/
def fpsSamples (closeAfterSeconds : ℚ) :
    List (Bool × ℚ) → LoopState → List ℚ
  | [], _ => []
  | (lockFrameRate, rawFrameTime) :: rest, s =>
    (statsTick closeAfterSeconds lockFrameRate rawFrameTime s).currentFPS ::
      (if 0 < closeAfterSeconds ∧
          closeAfterSeconds < (statsTick closeAfterSeconds lockFrameRate rawFrameTime s).elapsedTime then []
       else fpsSamples closeAfterSeconds rest (statsTick closeAfterSeconds lockFrameRate rawFrameTime s))

/-- Sum of the samples whose 1-based frame index, offset by n frames already
counted, is strictly greater than 100. -/
def sumFPSAfterWarmup : ℕ → List ℚ → ℚ
  | _, [] => 0
  | n, x :: xs => (if 100 < n + 1 then x else 0) + sumFPSAfterWarmup (n + 1) xs

/-- The arithmetic mean of the samples with frame index strictly greater
than 100 (samples are 1-indexed, so these are the ones past the first 100). -/
def meanAfterWarmup (l : List ℚ) : ℚ :=
  (l.drop 100).sum / ((l.drop 100).length : ℚ)

theorem sumFPSAfterWarmup_eq_drop (l : List ℚ) :
    ∀ n : ℕ, sumFPSAfterWarmup n l = (l.drop (100 - n)).sum := by
  induction l with
  | nil => intro n; simp [sumFPSAfterWarmup]
  | cons x xs ih =>
    intro n
    have hstep : sumFPSAfterWarmup n (x :: xs)
        = (if 100 < n + 1 then x else 0) + sumFPSAfterWarmup (n + 1) xs := rfl
    by_cases h : 100 < n + 1
    · have h0 : 100 - n = 0 := by omega
      have h1 : 100 - (n + 1) = 0 := by omega
      rw [hstep, if_pos h, ih (n + 1), h0, h1]
      simp
    · have h2 : 100 - n = (100 - (n + 1)) + 1 := by omega
      rw [hstep, if_neg h, ih (n + 1), h2]
      simp [List.drop_succ_cons]

theorem uint64Sub_100 (L : ℕ) (h1 : 100 ≤ L) (h2 : L < 2 ^ 64) :
    uint64Sub L 100 = L - 100 := by
  unfold uint64Sub
  have h3 : L + 2 ^ 64 - 100 = (L - 100) + 1 * 2 ^ 64 := by omega
  rw [h3, Nat.add_mul_mod_self_right]
  exact Nat.mod_eq_of_lt (by omega)

/-- Loop invariant for close-after termination: once the remaining raw frame
times push the elapsed time past a positive closeAfterSeconds, the run
terminates with exit code 0 at some state t whose frame count and FPS sum
extend the entry state's by exactly the executed samples. -/
theorem runMainLoop_run (D : ℚ) (hD : 0 < D) :
    ∀ (ticks : List (Bool × ℚ)) (s : LoopState),
      s.elapsedTime ≤ D →
      D < s.elapsedTime + (ticks.map Prod.snd).sum →
      ∃ t : LoopState,
        runMainLoop D ticks s = some (mkSummary t, t.fpsHistoryVector, 0) ∧
        t.numFrames = s.numFrames + (fpsSamples D ticks s).length ∧
        t.sumFPS = s.sumFPS + sumFPSAfterWarmup s.numFrames (fpsSamples D ticks s) := by
  intro ticks
  induction ticks with
  | nil =>
    intro s h1 h2
    rw [List.map_nil, List.sum_nil, add_zero] at h2
    exact absurd h2 (not_lt.mpr h1)
  | cons p rest ih =>
    obtain ⟨lock, raw⟩ := p
    intro s h1 h2
    have hrunEq : runMainLoop D ((lock, raw) :: rest) s
        = if 0 < D ∧ D < (statsTick D lock raw s).elapsedTime then
            some (mkSummary (statsTick D lock raw s),
              (statsTick D lock raw s).fpsHistoryVector, 0)
          else runMainLoop D rest (statsTick D lock raw s) := rfl
    have hfsEq : fpsSamples D ((lock, raw) :: rest) s
        = (statsTick D lock raw s).currentFPS ::
            (if 0 < D ∧ D < (statsTick D lock raw s).elapsedTime then []
             else fpsSamples D rest (statsTick D lock raw s)) := rfl
    have he : (statsTick D lock raw s).elapsedTime = s.elapsedTime + raw :=
      statsTick_elapsedTime D lock raw s
    have hn : (statsTick D lock raw s).numFrames = s.numFrames + 1 :=
      statsTick_numFrames D lock raw s hD
    have hsu : (statsTick D lock raw s).sumFPS
        = tickSumFPS (s.numFrames + 1) ((statsTick D lock raw s).currentFPS) s.sumFPS :=
      statsTick_sumFPS D lock raw s hD
    by_cases hterm : D < (statsTick D lock raw s).elapsedTime
    · refine ⟨statsTick D lock raw s, ?_, ?_, ?_⟩
      · rw [hrunEq, if_pos ⟨hD, hterm⟩]
      · rw [hfsEq, if_pos ⟨hD, hterm⟩, hn, List.length_cons]
        simp
      · rw [hfsEq, if_pos ⟨hD, hterm⟩, hsu]
        unfold tickSumFPS sumFPSAfterWarmup
        by_cases hw : 100 < s.numFrames + 1
        · rw [if_pos hw, if_pos hw]
          show s.sumFPS + _ = s.sumFPS + (_ + sumFPSAfterWarmup (s.numFrames + 1) [])
          rw [show sumFPSAfterWarmup (s.numFrames + 1) [] = 0 from rfl]
          ring
        · rw [if_neg hw, if_neg hw]
          show s.sumFPS = s.sumFPS + (0 + sumFPSAfterWarmup (s.numFrames + 1) [])
          rw [show sumFPSAfterWarmup (s.numFrames + 1) [] = 0 from rfl]
          ring
    · have hle : (statsTick D lock raw s).elapsedTime ≤ D := not_lt.mp hterm
      have hsum2 : D < (statsTick D lock raw s).elapsedTime + (rest.map Prod.snd).sum := by
        rw [List.map_cons, List.sum_cons] at h2
        rw [he]
        linarith
      obtain ⟨t, hrun, hnum, hsum⟩ := ih (statsTick D lock raw s) hle hsum2
      have hcond : ¬ (0 < D ∧ D < (statsTick D lock raw s).elapsedTime) :=
        fun hc => hterm hc.2
      refine ⟨t, ?_, ?_, ?_⟩
      · rw [hrunEq, if_neg hcond]
        exact hrun
      · rw [hfsEq, if_neg hcond, List.length_cons, hnum, hn]
        omega
      · rw [hfsEq, if_neg hcond, hsum, hsu, hn]
        show _ = s.sumFPS +
          ((if 100 < s.numFrames + 1 then (statsTick D lock raw s).currentFPS else 0) +
            sumFPSAfterWarmup (s.numFrames + 1) (fpsSamples D rest (statsTick D lock raw s)))
        unfold tickSumFPS
        by_cases hw : 100 < s.numFrames + 1
        · rw [if_pos hw, if_pos hw]
          ring
        · rw [if_neg hw, if_neg hw]
          ring

/-- C5: for every run with close-after duration D > 0 whose tick stream
exceeds D seconds of raw elapsed time (and runs past the 100-frame warm-up
without overflowing the 64-bit frame counter), the loop terminates producing
exactly one summary row and one time-series record with exit code 0, and the
summary's AverageFPS equals the arithmetic mean of the per-frame FPS samples
of the frames with index strictly greater than 100. -/
theorem C5_stats_summary (D : ℚ) (ticks : List (Bool × ℚ))
    (hD : 0 < D) (hgo : D < (ticks.map Prod.snd).sum)
    (hwarm : 100 < (fpsSamples D ticks initLoopState).length)
    (hbound : (fpsSamples D ticks initLoopState).length < 2 ^ 64) :
    ∃ minv maxv hist,
      runMainLoop D ticks initLoopState
        = some ((minv, maxv, meanAfterWarmup (fpsSamples D ticks initLoopState)), hist, 0) := by
  obtain ⟨t, hrun, hnum, hsum⟩ :=
    runMainLoop_run D hD ticks initLoopState (le_of_lt hD)
      (by simpa [initLoopState] using hgo)
  have hnum' : t.numFrames = (fpsSamples D ticks initLoopState).length := by
    simpa [initLoopState] using hnum
  have hsum' : t.sumFPS = ((fpsSamples D ticks initLoopState).drop 100).sum := by
    rw [hsum, sumFPSAfterWarmup_eq_drop]
    simp [initLoopState]
  have havg : mkSummary t
      = (t.minFPS, t.maxFPS, meanAfterWarmup (fpsSamples D ticks initLoopState)) := by
    unfold mkSummary meanAfterWarmup
    rw [hnum', uint64Sub_100 _ (by omega) hbound, hsum', List.length_drop]
  exact ⟨t.minFPS, t.maxFPS, t.fpsHistoryVector, by rw [hrun, havg]⟩

section
attribute [local semireducible] Rat.add Rat.sub Rat.mul Rat.inv Rat.ofScientific
set_option maxRecDepth 1000000

/-- C5 witness: 150 ticks of one raw second each under frame-rate lock, with
close-after duration 100.5 s; the run terminates at frame 101, past the
warm-up window. -/
theorem C5_stats_summary_witness :
    ∃ minv maxv hist,
      runMainLoop (201 / 2) (List.replicate 150 (true, (1 : ℚ))) initLoopState
        = some ((minv, maxv,
            meanAfterWarmup
              (fpsSamples (201 / 2) (List.replicate 150 (true, (1 : ℚ))) initLoopState)),
            hist, 0) :=
  C5_stats_summary (201 / 2) (List.replicate 150 (true, 1))
    (by norm_num) (by decide) (by decide) (by decide)

end

/-!
Backend-switch model (WinWrapper.cpp lines 443-543).  Each tick of the main
loop snapshots the active-backend flag before draining input
(`bool d3d12LastFrame = gSettings.d3d12;` line 445), and after draining
compares it with the possibly-changed flag: on a change it releases the
previous backend's swap chain and resizes (recreates) the new backend's swap
chain at the current render resolution (lines 464-472), then renders with the
currently active backend (lines 539-543).  The calls made to the two backend
workload objects in that stretch of the tick are modelled as a list; the
D3D12 WaitForReadyToRender call is omitted as it does not touch swap chains.
-/

/-- The two backend workloads (gWorkloadD3D11 / gWorkloadD3D12). -/
inductive Backend where
  | d3d11
  | d3d12
  deriving DecidableEq, BEq

/-- Swap-chain-relevant calls made to a backend workload during one tick. -/
inductive BackendCall where
  | releaseSwapChain : Backend → BackendCall
  | resizeSwapChain : Backend → ℕ → ℕ → BackendCall
  | render : Backend → BackendCall
  deriving DecidableEq

/-- Which backend the d3d12 settings flag selects. -/
def activeBackend (d3d12Flag : Bool) : Backend :=
  if d3d12Flag then Backend.d3d12 else Backend.d3d11

/-- The swap-chain calls of the switch block (WinWrapper.cpp lines 464-472):
empty when the flag did not change across input draining. -/
def switchCalls (d3d12LastFrame d3d12Now : Bool) (renderWidth renderHeight : ℕ) :
    List BackendCall :=
  if d3d12LastFrame ≠ d3d12Now then
    if d3d12Now then
      [BackendCall.releaseSwapChain Backend.d3d11,
       BackendCall.resizeSwapChain Backend.d3d12 renderWidth renderHeight]
    else
      [BackendCall.releaseSwapChain Backend.d3d12,
       BackendCall.resizeSwapChain Backend.d3d11 renderWidth renderHeight]
  else []

/-- All backend calls of one tick in program order: the switch block followed
by the render dispatch (WinWrapper.cpp lines 539-543). -/
def tickBackendCalls (d3d12LastFrame d3d12Now : Bool) (renderWidth renderHeight : ℕ) :
    List BackendCall :=
  switchCalls d3d12LastFrame d3d12Now renderWidth renderHeight ++
    [BackendCall.render (activeBackend d3d12Now)]

/-- Effect of a backend call on swap-chain ownership (which backend currently
has an active swap chain). -/
def applyBackendCall (owns : Backend → Bool) : BackendCall → (Backend → Bool)
  | BackendCall.releaseSwapChain b => fun x => if x = b then false else owns x
  | BackendCall.resizeSwapChain b _ _ => fun x => if x = b then true else owns x
  | BackendCall.render _ => owns

/-- Checks that every render call in the list targets a backend that owns an
active (not released, or re-created) swap chain at that point. -/
def rendersSafe (owns : Backend → Bool) : List BackendCall → Bool
  | [] => true
  | c :: rest =>
    (match c with
     | BackendCall.render b => owns b
     | _ => true) && rendersSafe (applyBackendCall owns c) rest

/-- C4: in a tick where the active-backend flag changed across input draining,
the previous backend's swap chain is released and the new backend's swap chain
is recreated at the current render resolution, both strictly before the tick's
render call; and in every tick (switch or not), starting from the previous
backend owning the swap chain, no render call targets a backend whose swap
chain has been released and not re-created. -/
theorem C4_backend_switch_safe (d3d12LastFrame d3d12Now : Bool)
    (renderWidth renderHeight : ℕ) :
    (d3d12LastFrame ≠ d3d12Now →
      tickBackendCalls d3d12LastFrame d3d12Now renderWidth renderHeight
        = [BackendCall.releaseSwapChain (activeBackend d3d12LastFrame),
           BackendCall.resizeSwapChain (activeBackend d3d12Now) renderWidth renderHeight,
           BackendCall.render (activeBackend d3d12Now)]) ∧
    rendersSafe (fun b => b == activeBackend d3d12LastFrame)
      (tickBackendCalls d3d12LastFrame d3d12Now renderWidth renderHeight) = true := by
  cases d3d12LastFrame <;> cases d3d12Now <;>
    simp [tickBackendCalls, switchCalls, activeBackend, rendersSafe, applyBackendCall] <;>
    rfl

/-- C4 witness: the D3D12 → D3D11 switch at render resolution 800×600. -/
theorem C4_backend_switch_safe_witness :
    tickBackendCalls true false 800 600
      = [BackendCall.releaseSwapChain (activeBackend true),
         BackendCall.resizeSwapChain (activeBackend false) 800 600,
         BackendCall.render (activeBackend false)] :=
  (C4_backend_switch_safe true false 800 600).1 (by simp)

/-!
Frame pacing (WinWrapper.cpp lines 545-559). -/

/-- WinWrapper.cpp lines 552-553:
`double targetRenderTime = 1.0 / double(gSettings.lockedFrameRate);`
`double deltaMs = (targetRenderTime - renderTime) * 1000.0;` -/
def paceDeltaMs (lockedFrameRate : ℤ) (renderTime : ℚ) : ℚ :=
  (1 / (lockedFrameRate : ℚ) - renderTime) * 1000

/-- WinWrapper.cpp lines 545-559: when the frame-rate lock is engaged and
deltaMs > 1, the thread blocks via `Sleep((DWORD)deltaMs)` (truncating cast of
a positive double); otherwise no pacing sleep happens.  The result is the
requested sleep duration in whole milliseconds, `none` when no sleep occurs. -/
def maybePaceFrameRate (lockFrameRate : Bool) (lockedFrameRate : ℤ)
    (renderTime : ℚ) : Option ℕ :=
  if lockFrameRate then
    if 1 < paceDeltaMs lockedFrameRate renderTime then
      some (⌊paceDeltaMs lockedFrameRate renderTime⌋.toNat)
    else none
  else none

/-- C8: with the frame-rate lock engaged, the computed pacing slack equals
(1000 / targetFPS) − renderTimeMs; the thread blocks if and only if that slack
exceeds 1 ms (the blocked duration being the DWORD-cast slack handed to
Sleep), and no pacing sleep is performed otherwise. -/
theorem C8_frame_pacing (lockedFrameRate : ℤ) (renderTime : ℚ) :
    paceDeltaMs lockedFrameRate renderTime
      = 1000 / (lockedFrameRate : ℚ) - renderTime * 1000 ∧
    ((maybePaceFrameRate true lockedFrameRate renderTime).isSome = true ↔
      1 < paceDeltaMs lockedFrameRate renderTime) ∧
    (1 < paceDeltaMs lockedFrameRate renderTime →
      maybePaceFrameRate true lockedFrameRate renderTime
        = some (⌊paceDeltaMs lockedFrameRate renderTime⌋.toNat)) ∧
    (¬ 1 < paceDeltaMs lockedFrameRate renderTime →
      maybePaceFrameRate true lockedFrameRate renderTime = none) := by
  refine ⟨by unfold paceDeltaMs; ring, ?_, ?_, ?_⟩ <;>
    by_cases h : 1 < paceDeltaMs lockedFrameRate renderTime <;>
      simp [maybePaceFrameRate, h]

/-- C8 witness: at 60 locked FPS with zero render time the slack is
1000/60 ms > 1 ms, so the tick sleeps for its DWORD cast. -/
theorem C8_frame_pacing_witness :
    maybePaceFrameRate true 60 0 = some (⌊paceDeltaMs 60 0⌋.toNat) :=
  (C8_frame_pacing 60 0).2.2.1 (by norm_num [paceDeltaMs])

/-!
Active-backend flag mutations (C9).  The d3d12 flag of the shared Settings is
written in exactly five places: keyboard keys '1' and '2' (WinWrapper.cpp
lines 198-199), the two GUI backend sprite clicks (lines 243-246), and the
startup assignment after workload construction (line 367).  Each write
computes the flag from the nullness of the constructed workload pointers. -/

/-- The five write sites of gSettings.d3d12. -/
inductive BackendMutation where
  | key1
  | key2
  | clickD3D11Control
  | clickD3D12Control
  | startupAssign
  deriving DecidableEq

/-- The value each write site stores into gSettings.d3d12, as a function of
which workloads were constructed (gWorkloadD3D11 / gWorkloadD3D12 non-null):
`'1'` stores `gWorkloadD3D11 == nullptr`; `'2'`, the D3D11-sprite click and
the startup assignment store `gWorkloadD3D12 != nullptr`; the D3D12-sprite
click stores `gWorkloadD3D11 == nullptr`. -/
def applyBackendMutation (d3d11Constructed d3d12Constructed : Bool) :
    BackendMutation → Bool
  | BackendMutation.key1 => !d3d11Constructed
  | BackendMutation.key2 => d3d12Constructed
  | BackendMutation.clickD3D11Control => d3d12Constructed
  | BackendMutation.clickD3D12Control => !d3d11Constructed
  | BackendMutation.startupAssign => d3d12Constructed

/-- C9: provided at least one workload was constructed (guaranteed by the
availability check at WinWrapper.cpp lines 321-324), every mutation of the
active-backend flag sets it to D3D12 only when the D3D12 workload exists and
to D3D11 only when the D3D11 workload exists; hence the backend selected by
the flag always has a constructed workload object. -/
theorem C9_backend_flag_valid (d3d11Constructed d3d12Constructed : Bool)
    (m : BackendMutation)
    (h : d3d11Constructed = true ∨ d3d12Constructed = true) :
    (applyBackendMutation d3d11Constructed d3d12Constructed m = true →
      d3d12Constructed = true) ∧
    (applyBackendMutation d3d11Constructed d3d12Constructed m = false →
      d3d11Constructed = true) ∧
    (if applyBackendMutation d3d11Constructed d3d12Constructed m
      then d3d12Constructed else d3d11Constructed) = true := by
  cases m <;> cases d3d11Constructed <;> cases d3d12Constructed <;>
    simp_all [applyBackendMutation]

/-- C9 witness: key '1' with only the D3D12 workload constructed selects
D3D12, whose workload exists. -/
theorem C9_backend_flag_valid_witness :
    (applyBackendMutation false true BackendMutation.key1 = true → true = true) ∧
    (applyBackendMutation false true BackendMutation.key1 = false → false = true) ∧
    (if applyBackendMutation false true BackendMutation.key1
      then true else false) = true :=
  C9_backend_flag_valid false true BackendMutation.key1 (Or.inr rfl)

/-!
Window resize handling (C10): the WM_SIZE arm of WindowProc (WinWrapper.cpp
lines 144-167). -/

/-- The fields of the shared Settings read or written by the two source files
(the struct itself lives in a header outside src/; field set and types are
taken from every use in WinWrapper.cpp). -/
structure Settings where
  d3d12 : Bool
  windowWidth : ℤ
  windowHeight : ℤ
  renderWidth : ℕ
  renderHeight : ℕ
  renderScale : ℚ
  animate : Bool
  vsync : Bool
  multithreadedRendering : Bool
  executeIndirect : Bool
  submitRendering : Bool
  lockFrameRate : Bool
  lockedFrameRate : ℤ
  closeAfterSeconds : ℚ
  windowed : Bool
  warp : Bool
  deriving DecidableEq

/-- The program state the WM_SIZE handler can touch: the shared settings, the
camera, and the swap-chain extent of each backend (`none` = released). -/
structure AppState where
  settings : Settings
  camera : OrbitCamera
  d3d11SwapChainExtent : Option (ℕ × ℕ)
  d3d12SwapChainExtent : Option (ℕ × ℕ)
  deriving DecidableEq

/-- The WM_SIZE arm of WindowProc (WinWrapper.cpp lines 144-167): zero width
or height (minimization) returns immediately; otherwise it stores the window
size, derives the render resolution through renderScale (C-style truncating
cast to UINT), recomputes the camera projection with the new aspect ratio and
fov = XM_PIDIV2 * 0.8 * 3 / 2, and resizes the active backend's swap chain to
the render resolution. -/
def onWMSize (st : AppState) (ww wh : ℕ) : AppState :=
  if ww = 0 ∨ wh = 0 then st
  else
    let renderWidth : ℕ := (⌊(ww : ℚ) * st.settings.renderScale⌋).toNat
    let renderHeight : ℕ := (⌊(wh : ℚ) * st.settings.renderScale⌋).toNat
    let aspect : ℚ := (renderWidth : ℚ) / (renderHeight : ℚ)
    let settings := { st.settings with
      windowWidth := (ww : ℤ)
      windowHeight := (wh : ℤ)
      renderWidth := renderWidth
      renderHeight := renderHeight }
    let camera := st.camera.Projection (XM_PIDIV2 * 0.8 * 3 / 2) aspect
    if st.settings.d3d12 then
      { st with
        settings := settings
        camera := camera
        d3d12SwapChainExtent := some (renderWidth, renderHeight) }
    else
      { st with
        settings := settings
        camera := camera
        d3d11SwapChainExtent := some (renderWidth, renderHeight) }

/-- C10: a WM_SIZE event reporting zero width or height (minimization)
returns without modifying any state - settings (window and render resolution
included), camera projection, and both backends' swap chains are unchanged. -/
theorem C10_minimize_resize_noop (st : AppState) (ww wh : ℕ)
    (h : ww = 0 ∨ wh = 0) :
    onWMSize st ww wh = st := by
  unfold onWMSize
  rw [if_pos h]

/-- A concrete app state for exercising the resize handler. -/
def sampleAppState : AppState :=
  { settings :=
    { d3d12 := true
      windowWidth := 1080
      windowHeight := 720
      renderWidth := 1080
      renderHeight := 720
      renderScale := 1
      animate := true
      vsync := false
      multithreadedRendering := true
      executeIndirect := false
      submitRendering := true
      lockFrameRate := false
      lockedFrameRate := 30
      closeAfterSeconds := 0
      windowed := true
      warp := false }
    camera := OrbitCamera.new
    d3d11SwapChainExtent := none
    d3d12SwapChainExtent := some (1080, 720) }

/-- C10 witness: a minimization event (width 0) leaves the state untouched. -/
theorem C10_minimize_resize_noop_witness :
    onWMSize sampleAppState 0 600 = sampleAppState :=
  C10_minimize_resize_noop sampleAppState 0 600 (Or.inl rfl)
